import Mathlib

set_option maxRecDepth 100000

/-!
Verification development for the DynamoDB payload formatter browser
extension (repository pretty-print-gzip-json).

The repository contains two variants of the content script:
the hover-preview content script (the variant that also builds the
preview panel, referred to below as the hover variant) and a simpler
variant in src/content.ts (referred to as the ct variant).  Both define
the same pipeline processPayload; they differ in where the clipboard
write happens and in whether decode failures carry an error message.
Both are embedded below.

Browser and library primitives (atob, pako.inflate, TextDecoder,
JSON.parse) are not repository code; they are abstracted as a Browser
record, and theorems about the pipeline quantify over that record,
stating the needed facts about the primitives as hypotheses.  A concrete
reference instantiation (refBrowser) is provided so that every theorem
can be evaluated at concrete inputs.  JSON.stringify(v, null, 2), whose
output format the claims pin down, is embedded concretely
(jsonStringify2), as is the trimming performed on textarea content
(jsTrim).
-/

/-! ## JSON values

Model of the values produced by JSON.parse, restricted to integer
numbers (JSON numbers are IEEE doubles in the host; the fractional and
exponent forms are outside this embedding).  Arrays and objects use
bespoke list types so that the serializer below is compiled by
structural recursion and reduces inside the kernel. -/

mutual

inductive Json where
  | null : Json
  | bool (b : Bool) : Json
  | num (n : Int) : Json
  | str (s : String) : Json
  | arr (elems : JsonArr) : Json
  | obj (entries : JsonObj) : Json

inductive JsonArr where
  | nil : JsonArr
  | cons (hd : Json) (tl : JsonArr) : JsonArr

inductive JsonObj where
  | nil : JsonObj
  | cons (key : String) (val : Json) (tl : JsonObj) : JsonObj

end

/-- Hexadecimal digit character, lowercase letters, as produced by the
JSON unicode escape in JSON.stringify. -/
def hexDigit (n : Nat) : Char :=
  if n < 10 then Char.ofNat (48 + n) else Char.ofNat (87 + n)

/-- Escaping of one character inside a JSON string literal, following
the QuoteJSONString algorithm of ECMA-262 used by JSON.stringify. -/
def escCharJson (c : Char) : List Char :=
  if c = '"' then ['\\', '"']
  else if c = '\\' then ['\\', '\\']
  else if c.toNat = 8 then ['\\', 'b']
  else if c = '\t' then ['\\', 't']
  else if c = '\n' then ['\\', 'n']
  else if c.toNat = 12 then ['\\', 'f']
  else if c = '\r' then ['\\', 'r']
  else if c.toNat < 32 then
    ['\\', 'u', '0', '0', hexDigit (c.toNat / 16), hexDigit (c.toNat % 16)]
  else [c]

/-- JSON string literal for s, double quoted and escaped. -/
def jsonQuote (s : String) : String :=
  String.mk ('"' :: (s.data.flatMap escCharJson ++ ['"']))

/-! Serialization with a two space gap, following the
SerializeJSONProperty / SerializeJSONObject / SerializeJSONArray
algorithms of ECMA-262 at gap "  ", which is what
JSON.stringify(parsedJson, null, 2) performs in processPayload. -/

mutual

/-- Serialize one JSON value at accumulated indentation ind. -/
def serVal (ind : String) (v : Json) : String :=
  match v with
  | .null => "null"
  | .bool true => "true"
  | .bool false => "false"
  | .num n => toString n
  | .str s => jsonQuote s
  | .arr .nil => "[]"
  | .arr xs => "[\n" ++ serArrItems (ind ++ "  ") xs ++ "\n" ++ ind ++ "]"
  | .obj .nil => "\x7b\x7d"
  | .obj es => "\x7b\n" ++ serObjItems (ind ++ "  ") es ++ "\n" ++ ind ++ "\x7d"

/-- Serialize array elements, one per line at indentation ind. -/
def serArrItems (ind : String) (xs : JsonArr) : String :=
  match xs with
  | .nil => ""
  | .cons x .nil => ind ++ serVal ind x
  | .cons x tl => ind ++ serVal ind x ++ ",\n" ++ serArrItems ind tl

/-- Serialize object entries, one per line at indentation ind. -/
def serObjItems (ind : String) (es : JsonObj) : String :=
  match es with
  | .nil => ""
  | .cons k x .nil => ind ++ jsonQuote k ++ ": " ++ serVal ind x
  | .cons k x tl =>
      ind ++ jsonQuote k ++ ": " ++ serVal ind x ++ ",\n" ++ serObjItems ind tl

end

/-- Embedding of JSON.stringify(v, null, 2): fixed two space
indentation, starting from the empty accumulated indent. -/
def jsonStringify2 (v : Json) : String := serVal "" v

/-! ## String trimming

The content script calls String.prototype.trim on the textarea value.
jsTrim models it: removal of the WhiteSpace and LineTerminator
characters of ECMA-262 from both ends. -/

/-- Characters removed by String.prototype.trim. -/
def isJsSpace (c : Char) : Bool :=
  c = ' ' || c = '\t' || c = '\n' || c = '\r' ||
  c.toNat = 11 || c.toNat = 12 || c.toNat = 0xa0 || c.toNat = 0xfeff ||
  c.toNat = 0x1680 || (0x2000 ≤ c.toNat && c.toNat ≤ 0x200a) ||
  c.toNat = 0x2028 || c.toNat = 0x2029 || c.toNat = 0x202f ||
  c.toNat = 0x205f || c.toNat = 0x3000

/-- Embedding of String.prototype.trim. -/
def jsTrim (s : String) : String :=
  String.mk (((s.data.dropWhile isJsSpace).reverse.dropWhile isJsSpace).reverse)

/-! ## The browser and library primitives

The pipeline calls four primitives that are not repository code: the
host atob, pako.inflate, TextDecoder.prototype.decode and JSON.parse.
They are abstracted as a record; theorems quantify over it and state
the facts they need about the primitives as hypotheses.  Byte sequences
are lists of naturals below 256; atob returns the binary string whose
character codes are the decoded bytes, exactly the form consumed by the
charCodeAt loop of decodeBase64. -/

structure Browser where
  atob : String → Option String
  inflate : List Nat → Option (List Nat)
  utf8Decode : List Nat → String
  jsonParse : String → Except String Json

/-! ## Results and effects -/

/-- The FormatResult record of the content scripts: success flag with
optional data and error strings. -/
structure FormatResult where
  success : Bool
  data : Option String
  error : Option String
deriving DecidableEq, Repr

/-- Observable effects issued by the content scripts.  clipboardWrite
is navigator.clipboard.writeText; execCommandCopy is the manual
selection fallback (create a textarea, select, execCommand copy,
remove). -/
inductive Effect where
  | clipboardWrite (text : String)
  | execCommandCopy (text : String)
deriving DecidableEq, Repr

/-- Embedding of copyToClipboard (identical in both variants).  The
clipboardAvailable flag states whether the asynchronous clipboard API
is available and its promise resolves; when it is not, the catch runs
the manual selection fallback.  Both branches return normally, so the
embedding is total: no error propagates out of copyToClipboard. -/
def copyToClipboard (clipboardAvailable : Bool) (text : String) : List Effect :=
  if clipboardAvailable then [Effect.clipboardWrite text]
  else [Effect.execCommandCopy text]

/-! ## The decode pipeline -/

/-- Embedding of decodeBase64: atob, then a loop reading charCodeAt of
every position of the binary string into a byte array.  An atob throw
(invalid encoding) is caught and rethrown, and surfaces here as none. -/
def decodeBase64 (B : Browser) (base64String : String) : Option (List Nat) :=
  (B.atob base64String).map (fun binaryString => binaryString.data.map Char.toNat)

/-- Embedding of decompressGzip: pako.inflate, with a throw on corrupt
or non gzip input caught and rethrown, surfacing here as none. -/
def decompressGzip (B : Browser) (compressedData : List Nat) : Option (List Nat) :=
  B.inflate compressedData

/-- Embedding of processPayload from the hover variant: base64 decode,
gzip inflate, UTF-8 decode, JSON parse, pretty print with two space
indentation.  The try/catch around the steps turns any step throw into
the bare failure record with success false and neither data nor error
(the source comments this as treating the input as not decodable).
The embedding is total: every input maps to a FormatResult, which is
the shallow form of the statement that processPayload never throws. -/
def processPayload (B : Browser) (base64Content : String) : FormatResult :=
  match decodeBase64 B base64Content with
  | none => { success := false, data := none, error := none }
  | some binaryData =>
    match decompressGzip B binaryData with
    | none => { success := false, data := none, error := none }
    | some decompressedData =>
      let jsonString := B.utf8Decode decompressedData
      match B.jsonParse jsonString with
      | .error _ => { success := false, data := none, error := none }
      | .ok parsedJson =>
          { success := true, data := some (jsonStringify2 parsedJson), error := none }

/-- Effect instrumented form of the hover variant processPayload: its
body calls only result returning steps (no clipboard access, no DOM
mutation), so every branch carries the empty effect list. -/
def processPayloadEff (B : Browser) (base64Content : String) :
    FormatResult × List Effect :=
  match decodeBase64 B base64Content with
  | none => ({ success := false, data := none, error := none }, [])
  | some binaryData =>
    match decompressGzip B binaryData with
    | none => ({ success := false, data := none, error := none }, [])
    | some decompressedData =>
      let jsonString := B.utf8Decode decompressedData
      match B.jsonParse jsonString with
      | .error _ => ({ success := false, data := none, error := none }, [])
      | .ok parsedJson =>
          ({ success := true, data := some (jsonStringify2 parsedJson), error := none }, [])

/-- Embedding of processPayload from the ct variant (src/content.ts).
Differences from the hover variant: on success it calls
copyToClipboard(formattedJson) before returning, and the catch maps the
message of the thrown Error into the error field, prefixed with Failed
to process payload.  decodeBase64 throws Invalid base64 encoding,
decompressGzip throws Failed to decompress gzip data, and a JSON.parse
throw carries the host parser message (taken from the jsonParse
primitive). -/
def processPayloadCT (B : Browser) (clipboardAvailable : Bool)
    (base64Content : String) : FormatResult × List Effect :=
  match decodeBase64 B base64Content with
  | none =>
      ({ success := false, data := none,
         error := some "Failed to process payload: Invalid base64 encoding" }, [])
  | some binaryData =>
    match decompressGzip B binaryData with
    | none =>
        ({ success := false, data := none,
           error := some "Failed to process payload: Failed to decompress gzip data" }, [])
    | some decompressedData =>
      let jsonString := B.utf8Decode decompressedData
      match B.jsonParse jsonString with
      | .error msg =>
          ({ success := false, data := none,
             error := some ("Failed to process payload: " ++ msg) }, [])
      | .ok parsedJson =>
          let formattedJson := jsonStringify2 parsedJson
          ({ success := true, data := some formattedJson, error := none },
           copyToClipboard clipboardAvailable formattedJson)

/-! ## Content script state

State of the hover variant content script: the last right clicked
element, the pending hover timer, the singleton preview panel, the
currently hovered textarea, the mousemove throttle clock and the page
hostname.  panelElemCount counts the preview panel container elements
appended to the document body; createPreviewPanel is the only code that
appends one.

DOM elements are modelled by an identifier (standing for reference
identity), a tag name and a value (the value of a textarea; reading the
value of an element that is not a textarea is guarded by the tag checks
in the source, so the field is simply unused there).  The panel model
keeps the fields the claims speak about: the text content of the
content area, the display style of the container and the isVisible
flag.  Panel geometry (positionPanel), the error text colour, the copy
button styling and the copy button click handler are visual details not
modelled here; none of the claims depends on them. -/

structure Elem where
  id : Nat
  tagName : String
  value : String
deriving DecidableEq, Repr

structure Panel where
  contentText : String
  display : String
  isVisible : Bool
deriving DecidableEq, Repr

structure ScriptState where
  lastRightClickedElement : Option Elem
  hoverTimeout : Option Elem
  previewPanel : Option Panel
  currentHoveredTextarea : Option Elem
  lastMouseMoveTime : Nat
  hostname : String
  panelElemCount : Nat
deriving DecidableEq, Repr

/-- Embedding of isInDynamoDBConsole:
window.location.hostname.includes of the console domain. -/
def isInDynamoDBConsole (st : ScriptState) : Bool :=
  decide ("console.aws.amazon.com".data <:+: st.hostname.data)

/-- Embedding of clearHoverTimer: clearTimeout of the pending timer and
null the handle.  The pending timer handle is modelled as the textarea
captured by the setTimeout callback. -/
def clearHoverTimer (st : ScriptState) : ScriptState :=
  { st with hoverTimeout := none }

/-- Embedding of hidePreviewPanel: when the panel exists and is
visible, set its display style to none and drop the flag; then always
clear the hover timer. -/
def hidePreviewPanel (st : ScriptState) : ScriptState :=
  let st1 :=
    match st.previewPanel with
    | some p =>
        if p.isVisible then
          let p1 : Panel := { p with display := "none", isVisible := false }
          { st with previewPanel := some p1 }
        else st
    | none => st
  clearHoverTimer st1

/-- Embedding of showPreviewPanel: set the content area text, raise the
flag and set the display style to block, then position the panel next
to the textarea (geometry not modelled). -/
def showPreviewPanel (st : ScriptState) (content : String) (_textarea : Elem) :
    ScriptState :=
  match st.previewPanel with
  | none => st
  | some p =>
      let p1 : Panel :=
        { p with contentText := content, isVisible := true, display := "block" }
      { st with previewPanel := some p1 }

/-- Embedding of showErrorPreview: set the content area to the Error
prefixed message, raise the flag and set the display style to block
(the colour change, the copy button hiding and the 3 second style
reset are visual details not modelled).  This function is defined in
the source but has no caller. -/
def showErrorPreview (st : ScriptState) (error : String) (_textarea : Elem) :
    ScriptState :=
  match st.previewPanel with
  | none => st
  | some p =>
      let p1 : Panel :=
        { p with contentText := "Error: " ++ error, isVisible := true,
                 display := "block" }
      { st with previewPanel := some p1 }

/-- Truthiness of the optional data string in the test
result.success and result.data of the source: present and nonempty. -/
def dataTruthy : Option String → Bool
  | none => false
  | some s => s ≠ ""

/-- Embedding of showPreviewForTextarea, the hover timer callback body:
return unchanged when the panel is missing or the trimmed textarea
value is empty; otherwise run the pipeline on the trimmed value, show
the panel with the data when the result is a success with truthy data,
and hide the panel otherwise (the source comments the failure case as
normal: nothing to preview).  The copy button click handler installed
on success is not modelled. -/
def showPreviewForTextarea (B : Browser) (st : ScriptState) (textarea : Elem) :
    ScriptState :=
  match st.previewPanel with
  | none => st
  | some _ =>
    if jsTrim textarea.value = "" then st
    else
      let result := processPayload B (jsTrim textarea.value)
      if result.success && dataTruthy result.data then
        showPreviewPanel st (result.data.getD "") textarea
      else hidePreviewPanel st

/-- Embedding of startHoverTimer: clear any pending timer, remember the
hovered textarea, and arm a timer whose callback (fireHoverTimer below)
captures the textarea. -/
def startHoverTimer (st : ScriptState) (textarea : Elem) : ScriptState :=
  let st1 := clearHoverTimer st
  { st1 with currentHoveredTextarea := some textarea,
             hoverTimeout := some textarea }

/-- Firing of the armed hover timer: the setTimeout callback runs
showPreviewForTextarea on the captured textarea when it is still the
hovered one.  A fired timer is no longer pending. -/
def fireHoverTimer (B : Browser) (st : ScriptState) : ScriptState :=
  match st.hoverTimeout with
  | none => st
  | some textarea =>
    let st1 := { st with hoverTimeout := none }
    if st1.currentHoveredTextarea = some textarea then
      showPreviewForTextarea B st1 textarea
    else st1

/-- Embedding of handleMouseMove: throttle to 100ms; over a textarea in
the console, arm the hover timer when entering a new textarea;
otherwise, when a textarea was hovered, forget it, cancel the timer and
hide the panel.  Nat subtraction agrees with the source here: a clock
running backwards also falls inside the throttle window. -/
def handleMouseMove (st : ScriptState) (target : Elem) (now : Nat) : ScriptState :=
  if now - st.lastMouseMoveTime < 100 then st
  else
    let st1 := { st with lastMouseMoveTime := now }
    if target.tagName = "TEXTAREA" && isInDynamoDBConsole st1 then
      if st1.currentHoveredTextarea ≠ some target then startHoverTimer st1 target
      else st1
    else
      if st1.currentHoveredTextarea ≠ none then
        hidePreviewPanel (clearHoverTimer
          { st1 with currentHoveredTextarea := none })
      else st1

/-- Embedding of handleMouseLeave.  This handler is defined in the
source but never registered with addEventListener, so no event ever
reaches it; it is embedded here because it is the only place the
pointer over the panel exception appears.  The delayed hide checks
whether the panel matches the hover pseudo class, modelled by the
pointerOverPanel flag. -/
def handleMouseLeave (st : ScriptState) (target : Elem)
    (pointerOverPanel : Bool) : ScriptState :=
  if target.tagName = "TEXTAREA" then
    let st1 :=
      if st.currentHoveredTextarea = some target then
        { st with currentHoveredTextarea := none }
      else st
    let st2 := clearHoverTimer st1
    if pointerOverPanel then st2 else hidePreviewPanel st2
  else st

/-- Embedding of the panel mouseenter handler installed by
createPreviewPanel: clear the pending hover timer. -/
def panelMouseEnter (st : ScriptState) : ScriptState :=
  clearHoverTimer st

/-- Embedding of the document click handler: hide the panel when it is
visible and the click target is outside it.  It is registered twice
(attachEventListeners and createPreviewPanel); the second run after the
first is the identity, so one application models the pair. -/
def documentClick (st : ScriptState) (targetInsidePanel : Bool) : ScriptState :=
  match st.previewPanel with
  | some p => if p.isVisible && !targetInsidePanel then hidePreviewPanel st else st
  | none => st

/-- Embedding of the contextmenu handler: remember the event target. -/
def contextMenuEvent (st : ScriptState) (target : Elem) : ScriptState :=
  { st with lastRightClickedElement := some target }

/-- Embedding of formatCurrentElement from the hover variant: validate
the last right clicked element (present, a textarea, nonempty after
trimming, in that order), then run the pipeline on the trimmed content;
on a success with truthy data, issue the clipboard copy.  The returned
FormatResult is the response sent back for a formatPayload message. -/
def formatCurrentElement (B : Browser) (clipboardAvailable : Bool)
    (st : ScriptState) : FormatResult × List Effect :=
  match st.lastRightClickedElement with
  | none => ({ success := false, data := none, error := some "No element selected" }, [])
  | some textarea =>
    if textarea.tagName ≠ "TEXTAREA" then
      ({ success := false, data := none,
         error := some "Selected element is not a textarea" }, [])
    else
      let content := jsTrim textarea.value
      if content = "" then
        ({ success := false, data := none, error := some "Textarea is empty" }, [])
      else
        let result := processPayload B content
        if result.success && dataTruthy result.data then
          (result, copyToClipboard clipboardAvailable (result.data.getD ""))
        else (result, [])

/-- The initial panel record built by createPreviewPanel: empty content
area, display none in the container style, isVisible false. -/
def initPanel : Panel :=
  { contentText := "", display := "none", isVisible := false }

/-- Embedding of createPreviewPanel at the state level: append one
panel container to the document body and store the singleton panel
record. -/
def createPreviewPanel (st : ScriptState) : ScriptState :=
  { st with previewPanel := some initPanel,
            panelElemCount := st.panelElemCount + 1 }

/-- State after the constructor runs at script load on a page with the
given hostname: listeners attached, message handler registered, and the
preview panel created exactly once. -/
def initState (hostname : String) : ScriptState :=
  createPreviewPanel
    { lastRightClickedElement := none, hoverTimeout := none,
      previewPanel := none, currentHoveredTextarea := none,
      lastMouseMoveTime := 0, hostname := hostname, panelElemCount := 0 }

/-- The browser dispatched events the content script reacts to.
mouseMove carries the event target and the Date.now clock; timerFire is
the armed hover timer elapsing; panelEnter is mouseenter on the panel;
docClick carries whether the click target is inside the panel;
formatRequest is the formatPayload message (its clipboard flag feeds
copyToClipboard). -/
inductive Event where
  | contextMenu (target : Elem)
  | mouseMove (target : Elem) (now : Nat)
  | timerFire
  | panelEnter
  | docClick (targetInsidePanel : Bool)
  | formatRequest (clipboardAvailable : Bool)
deriving DecidableEq, Repr

/-- One step of the event driven content script: dispatch one browser
event to its registered handler.  The formatPayload message handler
computes and sends a response without touching the state. -/
def step (B : Browser) (st : ScriptState) (e : Event) : ScriptState :=
  match e with
  | .contextMenu target => contextMenuEvent st target
  | .mouseMove target now => handleMouseMove st target now
  | .timerFire => fireHoverTimer B st
  | .panelEnter => panelMouseEnter st
  | .docClick inside => documentClick st inside
  | .formatRequest _ => st

/-! ## Reference instantiation of the browser primitives

The theorems below quantify over an arbitrary Browser record, stating
the facts they need about the primitives as hypotheses.  To evaluate
them at concrete inputs, a reference instantiation is built here:
a forgiving base64 decoder (the WHATWG algorithm behind atob), a UTF-8
decoder with replacement characters (TextDecoder with default options),
pako.inflate modelled on gzip streams whose DEFLATE body is a single
stored block, and a JSON parser over the integer numbered JSON
fragment.  A matching base64 encoder and UTF-8 encoder are defined to
build concrete inputs. -/

/-- Character of the standard base64 alphabet for a sextet. -/
def b64Char (n : Nat) : Char :=
  if n < 26 then Char.ofNat (65 + n)
  else if n < 52 then Char.ofNat (97 + (n - 26))
  else if n < 62 then Char.ofNat (48 + (n - 52))
  else if n = 62 then '+'
  else '/'

/-- Sextet of a character of the standard base64 alphabet. -/
def b64Index (c : Char) : Option Nat :=
  if 'A' ≤ c && c ≤ 'Z' then some (c.toNat - 65)
  else if 'a' ≤ c && c ≤ 'z' then some (c.toNat - 97 + 26)
  else if '0' ≤ c && c ≤ '9' then some (c.toNat - 48 + 52)
  else if c = '+' then some 62
  else if c = '/' then some 63
  else none

/-- Standard base64 encoding of a byte list, grouped three bytes to
four characters, padded with equals signs. -/
def b64encodeGroups : List Nat → List Char
  | [] => []
  | [a] => [b64Char (a / 4), b64Char ((a % 4) * 16), '=', '=']
  | [a, b] => [b64Char (a / 4), b64Char ((a % 4) * 16 + b / 16),
               b64Char ((b % 16) * 4), '=']
  | a :: b :: c :: rest =>
      b64Char (a / 4) :: b64Char ((a % 4) * 16 + b / 16) ::
      b64Char ((b % 16) * 4 + c / 64) :: b64Char (c % 64) ::
      b64encodeGroups rest

/-- Standard base64 encoding (the host btoa on a binary string). -/
def b64encode (bytes : List Nat) : String :=
  String.mk (b64encodeGroups bytes)

/-- ASCII whitespace stripped by forgiving base64. -/
def isAsciiWs (c : Char) : Bool :=
  c.toNat = 9 || c.toNat = 10 || c.toNat = 12 || c.toNat = 13 || c.toNat = 32

/-- Decode a list of sextets into bytes: full quartets give three
bytes; a final pair gives one byte and a final triple gives two bytes,
discarding leftover bits, as forgiving base64 does. -/
def b64DecodeQuads : List Nat → List Nat
  | a :: b :: c :: d :: rest =>
      (a * 4 + b / 16) :: ((b % 16) * 16 + c / 4) :: ((c % 4) * 64 + d) ::
      b64DecodeQuads rest
  | [a, b] => [a * 4 + b / 16]
  | [a, b, c] => [a * 4 + b / 16, (b % 16) * 16 + c / 4]
  | _ => []

/-- Strip up to two trailing equals signs. -/
def b64StripPad (cs : List Char) : List Char :=
  match cs.reverse with
  | '=' :: '=' :: rest => rest.reverse
  | '=' :: rest => rest.reverse
  | _ => cs

/-- The forgiving base64 decode algorithm of WHATWG: strip ASCII
whitespace, strip padding when the length is a multiple of four, refuse
length one modulo four and characters outside the alphabet, and decode
sextets into bytes. -/
def forgivingBase64 (s : String) : Option (List Nat) :=
  let cs := s.data.filter (fun c => !isAsciiWs c)
  let cs := if cs.length % 4 = 0 then b64StripPad cs else cs
  if cs.length % 4 = 1 then none
  else
    let sextets := cs.map b64Index
    if sextets.any (fun o => o.isNone) then none
    else some (b64DecodeQuads (sextets.map (fun o => o.getD 0)))

/-- Binary string whose character codes are the given bytes (the shape
atob returns and the charCodeAt loop consumes). -/
def binStringOfBytes (bytes : List Nat) : String :=
  String.mk (bytes.map Char.ofNat)

/-- Reference atob: forgiving base64 to a binary string. -/
def refAtob (s : String) : Option String :=
  (forgivingBase64 s).map binStringOfBytes

/-- UTF-8 bytes of one unicode scalar value. -/
def utf8EncodeCharNat (n : Nat) : List Nat :=
  if n < 0x80 then [n]
  else if n < 0x800 then [0xc0 + n / 64, 0x80 + n % 64]
  else if n < 0x10000 then
    [0xe0 + n / 4096, 0x80 + (n / 64) % 64, 0x80 + n % 64]
  else
    [0xf0 + n / 0x40000, 0x80 + (n / 4096) % 64, 0x80 + (n / 64) % 64,
     0x80 + n % 64]

/-- UTF-8 encoding of a string. -/
def utf8Encode (s : String) : List Nat :=
  s.data.flatMap (fun c => utf8EncodeCharNat c.toNat)

/-- Continuation byte test. -/
def isCont (b : Nat) : Bool := 0x80 ≤ b && b ≤ 0xbf

/-- Reference UTF-8 decoder with replacement characters, fuelled by the
input length: the WHATWG decoder of TextDecoder with default options,
with the simplification that on a malformed sequence one replacement
character is emitted and decoding resumes after the leading byte. -/
def utf8DecodeList : Nat → List Nat → List Char
  | 0, _ => []
  | _, [] => []
  | fuel + 1, b :: rest =>
    if b < 0x80 then Char.ofNat b :: utf8DecodeList fuel rest
    else if 0xc2 ≤ b && b ≤ 0xdf then
      match rest with
      | c :: rest2 =>
          if isCont c then
            Char.ofNat ((b - 0xc0) * 64 + (c - 0x80)) :: utf8DecodeList fuel rest2
          else '�' :: utf8DecodeList fuel rest
      | [] => ['�']
    else if 0xe0 ≤ b && b ≤ 0xef then
      match rest with
      | c :: d :: rest2 =>
          let lowOk := if b = 0xe0 then 0xa0 ≤ c && c ≤ 0xbf
                       else if b = 0xed then 0x80 ≤ c && c ≤ 0x9f
                       else isCont c
          if lowOk && isCont d then
            Char.ofNat ((b - 0xe0) * 4096 + (c - 0x80) * 64 + (d - 0x80)) ::
              utf8DecodeList fuel rest2
          else '�' :: utf8DecodeList fuel rest
      | _ => ['�']
    else if 0xf0 ≤ b && b ≤ 0xf4 then
      match rest with
      | c :: d :: e :: rest2 =>
          let lowOk := if b = 0xf0 then 0x90 ≤ c && c ≤ 0xbf
                       else if b = 0xf4 then 0x80 ≤ c && c ≤ 0x8f
                       else isCont c
          if lowOk && isCont d && isCont e then
            Char.ofNat ((b - 0xf0) * 0x40000 + (c - 0x80) * 4096 +
              (d - 0x80) * 64 + (e - 0x80)) :: utf8DecodeList fuel rest2
          else '�' :: utf8DecodeList fuel rest
      | _ => ['�']
    else '�' :: utf8DecodeList fuel rest

/-- Reference TextDecoder.prototype.decode. -/
def refUtf8Decode (bytes : List Nat) : String :=
  String.mk (utf8DecodeList (bytes.length + 1) bytes)

/-- One bit step of the CRC-32 shift register. -/
def crc32Step (c : Nat) : Nat :=
  if c % 2 = 1 then (c / 2) ^^^ 0xedb88320 else c / 2

/-- Fold one byte into the CRC-32 register. -/
def crc32Byte (c : Nat) (b : Nat) : Nat :=
  Nat.repeat crc32Step 8 (c ^^^ b)

/-- CRC-32 of a byte list (the gzip checksum). -/
def crc32 (bytes : List Nat) : Nat :=
  (bytes.foldl crc32Byte 0xffffffff) ^^^ 0xffffffff

/-- Two little endian bytes. -/
def toLE2 (n : Nat) : List Nat := [n % 256, (n / 256) % 256]

/-- Four little endian bytes. -/
def toLE4 (n : Nat) : List Nat :=
  [n % 256, (n / 256) % 256, (n / 65536) % 256, (n / 16777216) % 256]

/-- A gzip stream holding the payload in a single stored DEFLATE
block: ten byte header, stored block header with length and its
complement, the raw payload, then the CRC-32 and length trailer.
A gzip compression of the payload, in the sense that inflating it
yields the payload back. -/
def gzipStored (payload : List Nat) : List Nat :=
  [0x1f, 0x8b, 8, 0, 0, 0, 0, 0, 0, 255] ++
  [1] ++ toLE2 payload.length ++ toLE2 (65535 - payload.length) ++
  payload ++ toLE4 (crc32 payload) ++ toLE4 (payload.length % 4294967296)

/-- Reference pako.inflate, modelled on the gzip streams produced by
gzipStored: checks the gzip magic, method and empty flags, the stored
block framing and the checksum trailer, and returns the stored payload;
every other stream (in particular every non gzip input) maps to none.
Streams whose DEFLATE body uses huffman coded blocks are outside this
model. -/
def refInflate (bs : List Nat) : Option (List Nat) :=
  match bs with
  | 0x1f :: 0x8b :: 8 :: 0 :: _t1 :: _t2 :: _t3 :: _t4 :: _xfl :: _os :: rest =>
    match rest with
    | 1 :: l1 :: l2 :: n1 :: n2 :: rest2 =>
      let len := l1 + 256 * l2
      let nlen := n1 + 256 * n2
      if len + nlen = 65535 && rest2.length = len + 8 then
        let payload := rest2.take len
        let trailer := rest2.drop len
        if trailer = toLE4 (crc32 payload) ++ toLE4 (len % 4294967296) then
          some payload
        else none
      else none
    | _ => none
  | _ => none

/-! ## Reference JSON parser

A parser for the integer numbered JSON fragment, used as the reference
jsonParse primitive.  It is written as a stack machine driven by a fuel
counter so that it is compiled by structural recursion on the fuel and
reduces inside the kernel. -/

/-- Whitespace of the JSON grammar. -/
def isJsonWs (c : Char) : Bool :=
  c = ' ' || c = '\t' || c = '\n' || c = '\r'

/-- Value of a hexadecimal digit. -/
def hexVal (c : Char) : Option Nat :=
  if '0' ≤ c && c ≤ '9' then some (c.toNat - 48)
  else if 'a' ≤ c && c ≤ 'f' then some (c.toNat - 97 + 10)
  else if 'A' ≤ c && c ≤ 'F' then some (c.toNat - 65 + 10)
  else none

/-- Parse the characters of a JSON string literal after the opening
quote, handling the escape sequences of the JSON grammar; returns the
string and the input after the closing quote. -/
def parseStringChars : List Char → Except String (String × List Char)
  | [] => .error "Unterminated string in JSON"
  | '"' :: rest => .ok ("", rest)
  | '\\' :: 'u' :: a :: b :: c :: d :: rest =>
      (match hexVal a, hexVal b, hexVal c, hexVal d with
       | some ha, some hb, some hc, some hd =>
           (match parseStringChars rest with
            | .error m => .error m
            | .ok (s, r) =>
                .ok (String.mk
                  (Char.ofNat (ha * 4096 + hb * 256 + hc * 16 + hd) :: s.data), r))
       | _, _, _, _ => .error "Bad unicode escape in JSON")
  | '\\' :: e :: rest =>
      (match (match e with
              | '"' => some '"'
              | '\\' => some '\\'
              | '/' => some '/'
              | 'b' => some (Char.ofNat 8)
              | 'f' => some (Char.ofNat 12)
              | 'n' => some '\n'
              | 'r' => some '\r'
              | 't' => some '\t'
              | _ => none) with
       | none => .error "Bad escape in JSON"
       | some ch =>
           (match parseStringChars rest with
            | .error m => .error m
            | .ok (s, r) => .ok (String.mk (ch :: s.data), r)))
  | c :: rest =>
      if c.toNat < 32 then .error "Bad control character in JSON"
      else
        (match parseStringChars rest with
         | .error m => .error m
         | .ok (s, r) => .ok (String.mk (c :: s.data), r))

/-- Numeric value of a digit list. -/
def digitsToNat (ds : List Char) : Nat :=
  ds.foldl (fun acc c => acc * 10 + (c.toNat - 48)) 0

/-- Parse an integer JSON number at the head of the input (fractional
and exponent forms are outside this model and are rejected). -/
def parseIntNumber (cs : List Char) : Except String (Int × List Char) :=
  let (neg, cs1) := match cs with
    | '-' :: rest => (true, rest)
    | _ => (false, cs)
  let ds := cs1.takeWhile (fun c => c.isDigit)
  let rest := cs1.dropWhile (fun c => c.isDigit)
  if ds.isEmpty then .error "Unexpected token in JSON"
  else if 1 < ds.length && ds.headD '0' = '0' then .error "Leading zero in JSON"
  else
    match rest with
    | '.' :: _ => .error "Fractional numbers outside model"
    | 'e' :: _ => .error "Exponent numbers outside model"
    | 'E' :: _ => .error "Exponent numbers outside model"
    | _ =>
      let n : Int := Int.ofNat (digitsToNat ds)
      .ok (if neg then -n else n, rest)

/-- Reverse of a JsonArr accumulator. -/
def jsonArrRevAppend : JsonArr → JsonArr → JsonArr
  | .nil, acc => acc
  | .cons x tl, acc => jsonArrRevAppend tl (.cons x acc)

/-- Reverse of a JsonObj accumulator. -/
def jsonObjRevAppend : JsonObj → JsonObj → JsonObj
  | .nil, acc => acc
  | .cons k v tl, acc => jsonObjRevAppend tl (.cons k v acc)

/-- Stack frame of the parser: an array being filled (elements held in
reverse) or an object being filled (entries held in reverse, with the
key whose value is awaited). -/
inductive ParseFrame where
  | inArr (acc : JsonArr)
  | inObj (acc : JsonObj) (key : String)

/-- One pass of the JSON stack machine.  With have = none the machine
expects a value (or a closing bracket of an empty container); with
have = some v it attaches v to the innermost frame or, with an empty
stack, checks that only whitespace remains.  Fuel strictly decreases on
every recursive call. -/
def jsonRun : Nat → List ParseFrame → Option Json → List Char →
    Except String Json
  | 0, _, _, _ => .error "JSON input too deeply nested for fuel"
  | _ + 1, [], some v, cs =>
      if (cs.dropWhile isJsonWs).isEmpty then .ok v
      else .error "Unexpected trailing characters in JSON"
  | fuel + 1, ParseFrame.inArr acc :: stk, some v, cs =>
      (match cs.dropWhile isJsonWs with
       | ',' :: rest => jsonRun fuel (ParseFrame.inArr (.cons v acc) :: stk) none rest
       | ']' :: rest =>
           jsonRun fuel stk
             (some (Json.arr (jsonArrRevAppend (.cons v acc) .nil))) rest
       | _ => .error "Expected comma or closing bracket in JSON array")
  | fuel + 1, ParseFrame.inObj acc key :: stk, some v, cs =>
      (match cs.dropWhile isJsonWs with
       | ',' :: rest =>
           (match rest.dropWhile isJsonWs with
            | '"' :: rest2 =>
                (match parseStringChars rest2 with
                 | .error m => .error m
                 | .ok (k2, rest3) =>
                     (match rest3.dropWhile isJsonWs with
                      | ':' :: rest4 =>
                          jsonRun fuel
                            (ParseFrame.inObj (.cons key v acc) k2 :: stk) none rest4
                      | _ => .error "Expected colon in JSON object"))
            | _ => .error "Expected string key in JSON object")
       | '\x7d' :: rest =>
           jsonRun fuel stk
             (some (Json.obj (jsonObjRevAppend (.cons key v acc) .nil))) rest
       | _ => .error "Expected comma or closing brace in JSON object")
  | fuel + 1, stk, none, cs =>
      (match cs.dropWhile isJsonWs with
       | [] => .error "Unexpected end of JSON input"
       | 'n' :: 'u' :: 'l' :: 'l' :: rest => jsonRun fuel stk (some Json.null) rest
       | 't' :: 'r' :: 'u' :: 'e' :: rest =>
           jsonRun fuel stk (some (Json.bool true)) rest
       | 'f' :: 'a' :: 'l' :: 's' :: 'e' :: rest =>
           jsonRun fuel stk (some (Json.bool false)) rest
       | '"' :: rest =>
           (match parseStringChars rest with
            | .error m => .error m
            | .ok (s, rest2) => jsonRun fuel stk (some (Json.str s)) rest2)
       | '[' :: rest =>
           (match rest.dropWhile isJsonWs with
            | ']' :: rest2 => jsonRun fuel stk (some (Json.arr .nil)) rest2
            | _ => jsonRun fuel (ParseFrame.inArr .nil :: stk) none rest)
       | '\x7b' :: rest =>
           (match rest.dropWhile isJsonWs with
            | '\x7d' :: rest2 => jsonRun fuel stk (some (Json.obj .nil)) rest2
            | '"' :: rest2 =>
                (match parseStringChars rest2 with
                 | .error m => .error m
                 | .ok (k, rest3) =>
                     (match rest3.dropWhile isJsonWs with
                      | ':' :: rest4 =>
                          jsonRun fuel (ParseFrame.inObj .nil k :: stk) none rest4
                      | _ => .error "Expected colon in JSON object"))
            | _ => .error "Expected string key in JSON object")
       | cs2 =>
           (match parseIntNumber cs2 with
            | .error m => .error m
            | .ok (n, rest) => jsonRun fuel stk (some (Json.num n)) rest))

/-- Reference JSON.parse over the integer numbered JSON fragment. -/
def refJsonParse (s : String) : Except String Json :=
  jsonRun (2 * s.length + 8) [] none s.data

/-- The reference browser: forgiving base64 atob, stored block gzip
inflate, replacement character UTF-8 decode, integer fragment JSON
parse. -/
def refBrowser : Browser :=
  { atob := refAtob, inflate := refInflate,
    utf8Decode := refUtf8Decode, jsonParse := refJsonParse }

/-- The base64 text of the gzip stored stream of the UTF-8 bytes of the
JSON text null: a concrete valid payload for witnesses. -/
def validPayloadB64 : String := b64encode (gzipStored (utf8Encode "null"))

/-! ## Helper lemmas -/

/-- In the hover variant, every branch of processPayload, the success
one included, leaves the error field absent. -/
theorem processPayload_error_eq_none (B : Browser) (s : String) :
    (processPayload B s).error = none := by
  unfold processPayload
  split
  · rfl
  · split
    · rfl
    · dsimp only
      split <;> rfl

/-- The result component of formatCurrentElement does not depend on
clipboard availability. -/
theorem formatCurrentElement_fst_clipboard_free (B : Browser)
    (avail avail2 : Bool) (st : ScriptState) :
    (formatCurrentElement B avail st).1 = (formatCurrentElement B avail2 st).1 := by
  unfold formatCurrentElement
  cases st.lastRightClickedElement with
  | none => rfl
  | some el =>
    by_cases ht : el.tagName = "TEXTAREA"
    · by_cases hv : jsTrim el.value = ""
      · simp [ht, hv]
      · simp [ht, hv]
        split <;> rfl
    · simp [ht]

/-! ## Claim C1 -/

/-- C1: valid payloads round trip.  For every JSON value v, a JSON text
of v (any text the host parser maps to v), a gzip compression of its
UTF-8 bytes (any byte list the inflate primitive maps back to them),
and a host atob that inverts the standard base64 encoding on those
bytes, running processPayload on the base64 encoding returns a success
result whose data field is the two space indented pretty print
JSON.stringify(v, null, 2). -/
theorem processPayload_roundtrip (B : Browser) (v : Json) (txt : String)
    (gz : List Nat) (bin : String)
    (hatob : B.atob (b64encode gz) = some bin)
    (hbin : bin.data.map Char.toNat = gz)
    (hinfl : B.inflate gz = some (utf8Encode txt))
    (hutf8 : B.utf8Decode (utf8Encode txt) = txt)
    (hparse : B.jsonParse txt = Except.ok v) :
    processPayload B (b64encode gz) =
      { success := true, data := some (jsonStringify2 v), error := none } := by
  simp [processPayload, decodeBase64, decompressGzip, hatob, hbin, hinfl,
        hutf8, hparse]

/-- Witness for C1 at the concrete payload: the JSON text null, its
UTF-8 bytes in a stored block gzip stream, base64 encoded, under the
reference browser. -/
theorem processPayload_roundtrip_witness :
    refBrowser.atob (b64encode (gzipStored (utf8Encode "null"))) =
      some (binStringOfBytes (gzipStored (utf8Encode "null"))) ∧
    (binStringOfBytes (gzipStored (utf8Encode "null"))).data.map Char.toNat =
      gzipStored (utf8Encode "null") ∧
    refBrowser.inflate (gzipStored (utf8Encode "null")) = some (utf8Encode "null") ∧
    refBrowser.utf8Decode (utf8Encode "null") = "null" ∧
    refBrowser.jsonParse "null" = Except.ok Json.null ∧
    processPayload refBrowser (b64encode (gzipStored (utf8Encode "null"))) =
      { success := true, data := some (jsonStringify2 Json.null), error := none } :=
  ⟨rfl, rfl, rfl, rfl, rfl,
   processPayload_roundtrip refBrowser Json.null "null"
     (gzipStored (utf8Encode "null"))
     (binStringOfBytes (gzipStored (utf8Encode "null"))) rfl rfl rfl rfl rfl⟩

/-! ## Claim C2 -/

/-- C2: invalid inputs fail cleanly.  Whenever a pipeline step fails
(the input is not valid base64, or the decoded bytes are not valid
gzip data, or the inflated UTF-8 text is not valid JSON), processPayload
returns the failure record with success false, and the ct variant
pipeline result likewise has success false.  The embeddings are total
functions into FormatResult, the shallow form of the statement that no
exception propagates past the pipeline boundary. -/
theorem processPayload_invalid_fails (B : Browser) (s : String)
    (h : decodeBase64 B s = none ∨
         (∃ b, decodeBase64 B s = some b ∧ decompressGzip B b = none) ∨
         (∃ b d m, decodeBase64 B s = some b ∧ decompressGzip B b = some d ∧
            B.jsonParse (B.utf8Decode d) = Except.error m)) :
    processPayload B s = { success := false, data := none, error := none } ∧
    (∀ avail : Bool, (processPayloadCT B avail s).1.success = false) := by
  rcases h with h1 | ⟨b, hb, hg⟩ | ⟨b, d, m, hb, hg, hp⟩
  · exact ⟨by simp [processPayload, h1],
           fun _ => by simp [processPayloadCT, h1]⟩
  · exact ⟨by simp [processPayload, hb, hg],
           fun _ => by simp [processPayloadCT, hb, hg]⟩
  · exact ⟨by simp [processPayload, hb, hg, hp],
           fun _ => by simp [processPayloadCT, hb, hg, hp]⟩

/-- Witness for C2 at a concrete input that is not valid base64. -/
theorem processPayload_invalid_fails_witness :
    decodeBase64 refBrowser "!!!" = none ∧
    processPayload refBrowser "!!!" =
      { success := false, data := none, error := none } :=
  ⟨rfl, (processPayload_invalid_fails refBrowser "!!!" (Or.inl rfl)).1⟩

/-! ## Claim C3 -/

/-- C3 counterexample: the claim says an invocation of processPayload
performs no effect and in particular does not write the clipboard, but
the ct variant processPayload (src/content.ts, where the claim points)
calls copyToClipboard on the formatted JSON on its success path: at the
concrete valid payload it issues a clipboard write. -/
theorem processPayloadCT_writes_clipboard :
    (processPayloadCT refBrowser true validPayloadB64).1.success = true ∧
    (processPayloadCT refBrowser true validPayloadB64).2 =
      [Effect.clipboardWrite "null"] :=
  ⟨rfl, rfl⟩

/-- C3 amended: the pipeline is deterministic and its returned result
is a pure function of the input in both variants; the hover variant
processPayload performs no effect at all, while the ct variant
processPayload issues exactly the clipboard copy of the formatted JSON
on success (and no effect on failure), without the effect feeding back
into the returned result. -/
theorem processPayload_pure_amended (B : Browser) (avail avail2 : Bool)
    (s : String) :
    processPayloadEff B s = (processPayload B s, []) ∧
    (processPayloadCT B avail s).1 = (processPayloadCT B avail2 s).1 ∧
    (processPayloadCT B avail s).2 =
      (if (processPayloadCT B avail s).1.success then
        copyToClipboard avail (((processPayloadCT B avail s).1.data).getD "")
       else []) := by
  unfold processPayloadEff processPayload processPayloadCT
  split
  · exact ⟨rfl, rfl, rfl⟩
  · split
    · exact ⟨rfl, rfl, rfl⟩
    · dsimp only
      split
      · exact ⟨rfl, rfl, rfl⟩
      · exact ⟨rfl, rfl, by simp⟩

/-! ## Claim C4 -/

/-- Statement of claim C4 as a function, written from the words of the
claim: no element selected, then not a textarea, then empty after
trimming, in that validation order, and otherwise the decode pipeline
result on the trimmed value. -/
def formatCurrentElementSpec (B : Browser) (st : ScriptState) : FormatResult :=
  match st.lastRightClickedElement with
  | none => { success := false, data := none, error := some "No element selected" }
  | some el =>
    if el.tagName ≠ "TEXTAREA" then
      { success := false, data := none,
        error := some "Selected element is not a textarea" }
    else if jsTrim el.value = "" then
      { success := false, data := none, error := some "Textarea is empty" }
    else processPayload B (jsTrim el.value)

/-- C4: for every content script state and clipboard environment, the
response of formatCurrentElement is exactly the claimed case analysis,
in the claimed validation order. -/
theorem formatCurrentElement_matches_spec (B : Browser) (avail : Bool)
    (st : ScriptState) :
    (formatCurrentElement B avail st).1 = formatCurrentElementSpec B st := by
  unfold formatCurrentElement formatCurrentElementSpec
  cases st.lastRightClickedElement with
  | none => rfl
  | some el =>
    by_cases ht : el.tagName = "TEXTAREA"
    · by_cases hv : jsTrim el.value = ""
      · simp [ht, hv]
      · simp [ht, hv]
        split <;> rfl
    · simp [ht]

/-! ## Claim C5 -/

/-- A content script state in which the last right clicked element is a
textarea holding text that is not valid base64. -/
def stC5 : ScriptState :=
  { lastRightClickedElement :=
      some { id := 1, tagName := "TEXTAREA", value := "!!!" },
    hoverTimeout := none, previewPanel := some initPanel,
    currentHoveredTextarea := none, lastMouseMoveTime := 0,
    hostname := "us-east-1.console.aws.amazon.com", panelElemCount := 1 }

/-- C5 counterexample: the claim says every success false response to a
formatPayload request carries an error message, but when the decode
pipeline itself fails (here: text that is not valid base64 in the
right clicked textarea) the hover variant responds with success false
and no error field at all, so the background notification renders
Error: undefined. -/
theorem formatPayload_failure_without_error :
    (formatCurrentElement refBrowser true stC5).1.success = false ∧
    (formatCurrentElement refBrowser true stC5).1.error = none :=
  ⟨rfl, rfl⟩

/-- C5 amended: the three validation failures of formatCurrentElement
carry error messages, but once validation passes the response is the
pipeline result unchanged, and a pipeline failure has success false
with no error message. -/
theorem formatPayload_decode_failure_error_absent (B : Browser) (avail : Bool)
    (st : ScriptState) (el : Elem)
    (hel : st.lastRightClickedElement = some el)
    (htag : el.tagName = "TEXTAREA")
    (hval : jsTrim el.value ≠ "") :
    (formatCurrentElement B avail st).1 = processPayload B (jsTrim el.value) ∧
    ((processPayload B (jsTrim el.value)).success = false →
      (processPayload B (jsTrim el.value)).error = none) := by
  constructor
  · unfold formatCurrentElement
    simp [hel, htag, hval]
    split <;> rfl
  · intro _
    exact processPayload_error_eq_none B (jsTrim el.value)

/-- Witness for the amended C5 at the concrete state stC5. -/
theorem formatPayload_decode_failure_error_absent_witness :
    stC5.lastRightClickedElement =
      some { id := 1, tagName := "TEXTAREA", value := "!!!" } ∧
    (({ id := 1, tagName := "TEXTAREA", value := "!!!" } : Elem).tagName =
      "TEXTAREA") ∧
    jsTrim (({ id := 1, tagName := "TEXTAREA", value := "!!!" } : Elem).value) ≠ "" ∧
    ((formatCurrentElement refBrowser true stC5).1 =
        processPayload refBrowser
          (jsTrim (({ id := 1, tagName := "TEXTAREA", value := "!!!" } : Elem).value)) ∧
     ((processPayload refBrowser
         (jsTrim (({ id := 1, tagName := "TEXTAREA", value := "!!!" } : Elem).value))).success
           = false →
      (processPayload refBrowser
         (jsTrim (({ id := 1, tagName := "TEXTAREA", value := "!!!" } : Elem).value))).error
           = none)) :=
  ⟨rfl, rfl, by decide,
   formatPayload_decode_failure_error_absent refBrowser true stC5
     { id := 1, tagName := "TEXTAREA", value := "!!!" } rfl rfl (by decide)⟩

/-! ## Frame lemmas for the state machine -/

/-- hidePreviewPanel neither creates nor removes the panel element. -/
theorem hidePreviewPanel_frame (st : ScriptState) :
    (hidePreviewPanel st).panelElemCount = st.panelElemCount ∧
    (hidePreviewPanel st).previewPanel.isSome = st.previewPanel.isSome := by
  unfold hidePreviewPanel clearHoverTimer
  cases h : st.previewPanel with
  | none => simp [h]
  | some p =>
    by_cases hv : p.isVisible = true <;> simp [h, hv]

/-- showPreviewPanel neither creates nor removes the panel element. -/
theorem showPreviewPanel_frame (st : ScriptState) (c : String) (ta : Elem) :
    (showPreviewPanel st c ta).panelElemCount = st.panelElemCount ∧
    (showPreviewPanel st c ta).previewPanel.isSome = st.previewPanel.isSome := by
  unfold showPreviewPanel
  cases h : st.previewPanel <;> simp [h]

/-- showErrorPreview neither creates nor removes the panel element. -/
theorem showErrorPreview_frame (st : ScriptState) (e : String) (ta : Elem) :
    (showErrorPreview st e ta).panelElemCount = st.panelElemCount ∧
    (showErrorPreview st e ta).previewPanel.isSome = st.previewPanel.isSome := by
  unfold showErrorPreview
  cases h : st.previewPanel <;> simp [h]

/-- showPreviewForTextarea neither creates nor removes the panel
element. -/
theorem showPreviewForTextarea_frame (B : Browser) (st : ScriptState) (ta : Elem) :
    (showPreviewForTextarea B st ta).panelElemCount = st.panelElemCount ∧
    (showPreviewForTextarea B st ta).previewPanel.isSome = st.previewPanel.isSome := by
  unfold showPreviewForTextarea
  cases h : st.previewPanel with
  | none => simp [h]
  | some p =>
    by_cases hv : jsTrim ta.value = ""
    · simp [h, hv]
    · simp only [h, hv, if_false]
      split
      · have hs := showPreviewPanel_frame st
          ((processPayload B (jsTrim ta.value)).data.getD "") ta
        simpa [h] using hs
      · have hh := hidePreviewPanel_frame st
        simpa [h] using hh

/-- startHoverTimer neither creates nor removes the panel element. -/
theorem startHoverTimer_frame (st : ScriptState) (ta : Elem) :
    (startHoverTimer st ta).panelElemCount = st.panelElemCount ∧
    (startHoverTimer st ta).previewPanel.isSome = st.previewPanel.isSome :=
  ⟨rfl, rfl⟩

/-- fireHoverTimer neither creates nor removes the panel element. -/
theorem fireHoverTimer_frame (B : Browser) (st : ScriptState) :
    (fireHoverTimer B st).panelElemCount = st.panelElemCount ∧
    (fireHoverTimer B st).previewPanel.isSome = st.previewPanel.isSome := by
  unfold fireHoverTimer
  cases h : st.hoverTimeout with
  | none => exact ⟨rfl, rfl⟩
  | some ta =>
    dsimp only
    split
    · have hs := showPreviewForTextarea_frame B { st with hoverTimeout := none } ta
      simpa using hs
    · exact ⟨rfl, rfl⟩

/-- handleMouseMove neither creates nor removes the panel element. -/
theorem handleMouseMove_frame (st : ScriptState) (t : Elem) (now : Nat) :
    (handleMouseMove st t now).panelElemCount = st.panelElemCount ∧
    (handleMouseMove st t now).previewPanel.isSome = st.previewPanel.isSome := by
  unfold handleMouseMove
  split
  · exact ⟨rfl, rfl⟩
  · dsimp only
    split
    · split
      · have hs := startHoverTimer_frame { st with lastMouseMoveTime := now } t
        simpa using hs
      · exact ⟨rfl, rfl⟩
    · split
      · have hh := hidePreviewPanel_frame (clearHoverTimer
          { st with lastMouseMoveTime := now, currentHoveredTextarea := none })
        simpa [clearHoverTimer] using hh
      · exact ⟨rfl, rfl⟩

/-- documentClick neither creates nor removes the panel element. -/
theorem documentClick_frame (st : ScriptState) (inside : Bool) :
    (documentClick st inside).panelElemCount = st.panelElemCount ∧
    (documentClick st inside).previewPanel.isSome = st.previewPanel.isSome := by
  unfold documentClick
  cases h : st.previewPanel with
  | none => simp [h]
  | some p =>
    dsimp only
    split
    · have hh := hidePreviewPanel_frame st
      simpa [h] using hh
    · simp [h]

/-! ## Claim C6 -/

/-- A textarea being hovered, with the preview panel shown for it and
the hover timer still pending. -/
def taC6 : Elem := { id := 1, tagName := "TEXTAREA", value := "payload" }

/-- The preview panel container as a mousemove target: a div, reached
when the pointer moves from the textarea onto the panel. -/
def panelTargetC6 : Elem := { id := 2, tagName := "DIV", value := "" }

/-- Content script state with the panel visible for taC6. -/
def stC6 : ScriptState :=
  { lastRightClickedElement := none, hoverTimeout := some taC6,
    previewPanel :=
      some { contentText := "shown", display := "block", isVisible := true },
    currentHoveredTextarea := some taC6, lastMouseMoveTime := 0,
    hostname := "eu-west-1.console.aws.amazon.com", panelElemCount := 1 }

/-- C6: the claim (and the source comment Prevent panel from
disappearing when hovering over it, together with the unregistered
handleMouseLeave handler) say that when the pointer leaves the hovered
text box for the panel itself, the panel stays visible.  The registered
mousemove path contradicts this: a mousemove whose target is the panel
container (outside the throttle window) clears the hover timer and
hides the panel unconditionally.  This theorem evaluates the step
function at that failing input: the panel ends hidden. -/
theorem mouseMove_onto_panel_hides_panel :
    (step refBrowser stC6 (Event.mouseMove panelTargetC6 500)).previewPanel =
      some { contentText := "shown", display := "none", isVisible := false } ∧
    (step refBrowser stC6 (Event.mouseMove panelTargetC6 500)).hoverTimeout = none :=
  ⟨rfl, rfl⟩

/-! ## Claim C7 -/

/-- C7: the preview panel is a singleton.  The constructor creates
exactly one panel element at script load and stores the panel record,
and no event handler ever creates a second panel element or removes the
stored one: panelElemCount and the presence of the panel record are
preserved by every step. -/
theorem preview_panel_singleton (hn : String) (B : Browser) (st : ScriptState)
    (e : Event) :
    (initState hn).panelElemCount = 1 ∧
    (initState hn).previewPanel = some initPanel ∧
    (step B st e).panelElemCount = st.panelElemCount ∧
    (step B st e).previewPanel.isSome = st.previewPanel.isSome := by
  have hstep : (step B st e).panelElemCount = st.panelElemCount ∧
      (step B st e).previewPanel.isSome = st.previewPanel.isSome := by
    cases e with
    | contextMenu t => exact ⟨rfl, rfl⟩
    | mouseMove t now => exact handleMouseMove_frame st t now
    | timerFire => exact fireHoverTimer_frame B st
    | panelEnter => exact ⟨rfl, rfl⟩
    | docClick inside => exact documentClick_frame st inside
    | formatRequest a => exact ⟨rfl, rfl⟩
  exact ⟨rfl, rfl, hstep.1, hstep.2⟩

/-! ## Claim C8 -/

/-- The effects of formatCurrentElement are exactly the clipboard copy
of the returned data on a success with truthy data, and nothing
otherwise. -/
theorem formatCurrentElement_snd_eq (B : Browser) (avail : Bool)
    (st : ScriptState) :
    (formatCurrentElement B avail st).2 =
      (if (formatCurrentElement B avail st).1.success &&
          dataTruthy (formatCurrentElement B avail st).1.data then
        copyToClipboard avail (((formatCurrentElement B avail st).1.data).getD "")
       else []) := by
  unfold formatCurrentElement
  cases h : st.lastRightClickedElement with
  | none => simp [dataTruthy]
  | some el =>
    by_cases ht : el.tagName = "TEXTAREA"
    · by_cases hv : jsTrim el.value = ""
      · simp [ht, hv, dataTruthy]
      · simp only [ht, hv, ne_eq, not_true_eq_false, if_false, ite_false,
                   not_false_eq_true, if_true, ite_true]
        split
        · rename_i hc
          simp [hc]
        · rename_i hc
          simp [Bool.not_eq_true] at hc
          simp [hc]
    · simp [ht, dataTruthy]

/-- C8: on a successful explicit invocation (success with truthy data)
the effects are exactly the clipboard copy of the formatted JSON; the
copy uses the asynchronous clipboard write when available and the
manual selection fallback otherwise, with both branches returning
normally; and the returned result does not depend on clipboard
availability (it is not awaited). -/
theorem explicit_invoke_copies_with_fallback (B : Browser) (avail : Bool)
    (st : ScriptState) (text : String) :
    copyToClipboard true text = [Effect.clipboardWrite text] ∧
    copyToClipboard false text = [Effect.execCommandCopy text] ∧
    (formatCurrentElement B avail st).1 = (formatCurrentElement B true st).1 ∧
    (((formatCurrentElement B avail st).1.success = true ∧
      dataTruthy (formatCurrentElement B avail st).1.data = true) →
      (formatCurrentElement B avail st).2 =
        copyToClipboard avail (((formatCurrentElement B avail st).1.data).getD "")) := by
  refine ⟨rfl, rfl, formatCurrentElement_fst_clipboard_free B avail true st, ?_⟩
  rintro ⟨hs, hd⟩
  rw [formatCurrentElement_snd_eq, hs, hd]
  simp

/-- Content script state holding the concrete valid payload in the
right clicked textarea. -/
def stC8 : ScriptState :=
  { lastRightClickedElement :=
      some { id := 3, tagName := "TEXTAREA", value := validPayloadB64 },
    hoverTimeout := none, previewPanel := some initPanel,
    currentHoveredTextarea := none, lastMouseMoveTime := 0,
    hostname := "us-east-1.console.aws.amazon.com", panelElemCount := 1 }

/-- Witness for C8 at the concrete valid payload: the invocation
succeeds and its sole effect is the clipboard copy of the data. -/
theorem explicit_invoke_copies_with_fallback_witness :
    ((formatCurrentElement refBrowser true stC8).1.success = true ∧
     dataTruthy (formatCurrentElement refBrowser true stC8).1.data = true) ∧
    (formatCurrentElement refBrowser true stC8).2 =
      copyToClipboard true
        (((formatCurrentElement refBrowser true stC8).1.data).getD "") :=
  ⟨⟨rfl, rfl⟩,
   (explicit_invoke_copies_with_fallback refBrowser true stC8 "x").2.2.2 ⟨rfl, rfl⟩⟩

/-! ## Claim C9 -/

/-- C9: when the hover timer fires over a textarea whose value trims to
the empty string, showPreviewForTextarea returns the state unchanged:
in particular the preview panel keeps exactly its previous record, so a
visible panel stays visible with its previous content and a hidden
panel stays hidden. -/
theorem showPreviewForTextarea_empty_noop (B : Browser) (st : ScriptState)
    (ta : Elem) (h : jsTrim ta.value = "") :
    showPreviewForTextarea B st ta = st ∧
    (showPreviewForTextarea B st ta).previewPanel = st.previewPanel := by
  have he : showPreviewForTextarea B st ta = st := by
    unfold showPreviewForTextarea
    cases hp : st.previewPanel with
    | none => rfl
    | some p => simp [h]
  exact ⟨he, by rw [he]⟩

/-- A hovered textarea whose value trims to the empty string. -/
def taC9 : Elem := { id := 4, tagName := "TEXTAREA", value := "   " }

/-- Witness for C9 at the concrete whitespace textarea. -/
theorem showPreviewForTextarea_empty_noop_witness :
    jsTrim taC9.value = "" ∧
    showPreviewForTextarea refBrowser (initState "host") taC9 = initState "host" :=
  ⟨rfl,
   (showPreviewForTextarea_empty_noop refBrowser (initState "host") taC9 rfl).1⟩

/-! ## Claim C10 -/

/-- Agreement of the isVisible flag with the display style: the flag is
true exactly on display block and false exactly on display none. -/
def panelAgrees (p : Panel) : Prop :=
  (p.isVisible = true ↔ p.display = "block") ∧
  (p.isVisible = false ↔ p.display = "none")

/-- Agreement holds of the stored panel when one exists. -/
def stAgrees (st : ScriptState) : Prop :=
  match st.previewPanel with
  | none => True
  | some p => panelAgrees p

/-- The stored panel of an agreeing state agrees. -/
theorem stAgrees_of_panel (st : ScriptState) (p : Panel)
    (hp : st.previewPanel = some p) (h : stAgrees st) : panelAgrees p := by
  unfold stAgrees at h
  rw [hp] at h
  exact h

/-- A state whose stored panel agrees, agrees. -/
theorem stAgrees_intro (st : ScriptState) (p : Panel)
    (hp : st.previewPanel = some p) (h : panelAgrees p) : stAgrees st := by
  unfold stAgrees
  rw [hp]
  exact h

/-- The display styles block and none are distinct strings. -/
theorem blockNeNone : ("block" : String) ≠ "none" := by decide

/-- The display styles none and block are distinct strings. -/
theorem noneNeBlock : ("none" : String) ≠ "block" := by decide

/-- A panel shown with display block and the flag raised agrees. -/
theorem panelAgrees_block (c : String) :
    panelAgrees { contentText := c, display := "block", isVisible := true } :=
  ⟨iff_of_true rfl rfl,
   iff_of_false (fun hx => Bool.noConfusion hx) (fun hx => blockNeNone hx)⟩

/-- A panel hidden with display none and the flag dropped agrees. -/
theorem panelAgrees_none_display (c : String) :
    panelAgrees { contentText := c, display := "none", isVisible := false } :=
  ⟨iff_of_false (fun hx => Bool.noConfusion hx) (fun hx => noneNeBlock hx),
   iff_of_true rfl rfl⟩

/-- C10: the isVisible flag always matches the display style: it holds
after panel creation, and each of showPreviewPanel, showErrorPreview
and hidePreviewPanel preserves it. -/
theorem panel_flag_matches_display (hn : String) (st : ScriptState)
    (content err : String) (ta : Elem) (h : stAgrees st) :
    stAgrees (initState hn) ∧
    stAgrees (showPreviewPanel st content ta) ∧
    stAgrees (showErrorPreview st err ta) ∧
    stAgrees (hidePreviewPanel st) := by
  refine ⟨?_, ?_, ?_, ?_⟩
  · exact stAgrees_intro (initState hn) initPanel rfl (panelAgrees_none_display "")
  · unfold showPreviewPanel
    cases hp : st.previewPanel with
    | none => exact h
    | some p => exact stAgrees_intro _ _ rfl (panelAgrees_block content)
  · unfold showErrorPreview
    cases hp : st.previewPanel with
    | none => exact h
    | some p => exact stAgrees_intro _ _ rfl (panelAgrees_block ("Error: " ++ err))
  · unfold hidePreviewPanel clearHoverTimer
    cases hp : st.previewPanel with
    | none => trivial
    | some p =>
      dsimp only
      by_cases hv : p.isVisible = true
      · rw [if_pos hv]
        exact stAgrees_intro _ _ rfl (panelAgrees_none_display p.contentText)
      · rw [if_neg hv]
        exact stAgrees_intro _ p (by simp [hp]) (stAgrees_of_panel st p hp h)

/-- Witness for C10: agreement at the freshly created panel and after a
hide on it. -/
theorem panel_flag_matches_display_witness :
    stAgrees (initState "host2") ∧ stAgrees (hidePreviewPanel (initState "host2")) := by
  have h0 : stAgrees (initState "host2") :=
    stAgrees_intro (initState "host2") initPanel rfl (panelAgrees_none_display "")
  exact ⟨h0,
    (panel_flag_matches_display "host2" (initState "host2") "c" "e"
      { id := 9, tagName := "TEXTAREA", value := "" } h0).2.2.2⟩
